import Mathlib

/-!
Verification of the natural-language query pipeline of the expenses-tracker
backend (`backend_py/chatbot/`): intent detection, SQL generation repair,
security validation, query execution bounds, response formatting, and the
orchestrating chatbot service.

Python strings are modelled as `List Char`.  Python's `str.lower`, `str.strip`,
`str.find`, `str.replace`, `str.split("\n")`, `in` (substring) and the `re`
module searches used by the code are embedded as executable Lean functions.
Regular-expression patterns are embedded via a Brzozowski-derivative matcher.
-/

set_option maxRecDepth 10000

namespace ExpensesTracker

/-- Python strings are modelled as lists of characters. -/
abbrev Str := List Char

/-- `str.lower()` (ASCII case folding, which covers every character the
embedded patterns and keyword lists compare against). -/
def pyLower (s : Str) : Str := s.map Char.toLower

/-- `str.lstrip()`. -/
def pyLStrip (s : Str) : Str := s.dropWhile Char.isWhitespace

/-- Removal of trailing whitespace, via reversal. -/
def pyRStripWs (s : Str) : Str := (s.reverse.dropWhile Char.isWhitespace).reverse

/-- `str.strip()`. -/
def pyStrip (s : Str) : Str := pyLStrip (pyRStripWs s)

/-- `str.rstrip(";")`: remove trailing semicolon characters. -/
def pyRStripSemi (s : Str) : Str := (s.reverse.dropWhile (fun c => c = ';')).reverse

/-- Decidable prefix test on character lists. -/
def isPrefixB : Str → Str → Bool
  | [], _ => true
  | _ :: _, [] => false
  | c :: p, d :: s => c = d && isPrefixB p s

/-- Decidable suffix test on character lists. -/
def isSuffixB (p s : Str) : Bool := isPrefixB p.reverse s.reverse

/-- `str.find(pat)`: index of the first occurrence of `pat`, if any
(Python's `-1` is modelled as `none`). -/
def findSubstr (pat : Str) : Str → Option Nat
  | [] => if isPrefixB pat [] then some 0 else none
  | c :: rest =>
      if isPrefixB pat (c :: rest) then some 0
      else (findSubstr pat rest).map (· + 1)

/-- Python's `pat in s` substring test. -/
def containsSub (pat s : Str) : Bool := (findSubstr pat s).isSome

/-- `str.find(pat, start)`. -/
def findSubstrFrom (pat : Str) (s : Str) (start : Nat) : Option Nat :=
  (findSubstr pat (s.drop start)).map (· + start)

/-- `str.replace(pat, rep)` with explicit fuel; the fuel is always taken to be
the length of the subject string, which suffices because every step consumes
at least one character of the subject when `pat` is nonempty. -/
def replaceAllFuel : Nat → Str → Str → Str → Str
  | 0, s, _, _ => s
  | fuel + 1, s, pat, rep =>
      if pat ≠ [] ∧ isPrefixB pat s then
        rep ++ replaceAllFuel fuel (s.drop pat.length) pat rep
      else
        match s with
        | [] => []
        | c :: rest => c :: replaceAllFuel fuel rest pat rep

/-- `str.replace(pat, rep)` (non-overlapping, left to right). -/
def replaceAll (s pat rep : Str) : Str := replaceAllFuel s.length s pat rep

/-- `"sep".join(items)`. -/
def pyJoin (sep : Str) : List Str → Str
  | [] => []
  | [x] => x
  | x :: y :: rest => x ++ sep ++ pyJoin sep (y :: rest)

/-- `str.split("\n")`. -/
def splitNl : Str → List Str
  | [] => [[]]
  | c :: rest =>
      let r := splitNl rest
      if c = '\n' then [] :: r
      else
        match r with
        | x :: xs => (c :: x) :: xs
        | [] => [[c]]

/-- Decimal digits of a natural number (`str(n)` for nonnegative `n`). -/
def natStr (n : Nat) : Str := Nat.toDigits 10 n

/-- `str(n)` for integers. -/
def intStr (n : Int) : Str :=
  if n < 0 then '-' :: natStr n.natAbs else natStr n.natAbs

/-! ## A Brzozowski-derivative regular-expression engine

Each Python `re` pattern used by the source is embedded as a `RE` value;
`reSearch` is `re.search` (does the pattern match anywhere?), `reMatchFull`
is a full match, used for the patterns that are anchored on both sides.
Case-insensitive searches (`re.IGNORECASE`) are modelled by searching the
lower-cased subject with lower-case pattern literals. -/

/-- Regular expressions over characters; `cls` holds a decidable character
predicate (character classes such as `\d`, `\s`, `.`). -/
inductive RE where
  | emp : RE
  | eps : RE
  | cls (p : Char → Bool) : RE
  | cat (a b : RE) : RE
  | alt (a b : RE) : RE
  | star (a : RE) : RE

/-- Does the regular expression accept the empty string? -/
def RE.nullable : RE → Bool
  | .emp => false
  | .eps => true
  | .cls _ => false
  | .cat a b => a.nullable && b.nullable
  | .alt a b => a.nullable || b.nullable
  | .star _ => true

/-- Smart concatenation (keeps derivatives small). -/
def RE.scat : RE → RE → RE
  | .emp, _ => .emp
  | _, .emp => .emp
  | .eps, b => b
  | a, .eps => a
  | a, b => .cat a b

/-- Smart alternation. -/
def RE.salt : RE → RE → RE
  | .emp, b => b
  | a, .emp => a
  | a, b => .alt a b

/-- Brzozowski derivative with respect to a character. -/
def RE.deriv (c : Char) : RE → RE
  | .emp => .emp
  | .eps => .emp
  | .cls p => if p c then .eps else .emp
  | .cat a b =>
      if a.nullable then .salt (.scat (a.deriv c) b) (b.deriv c)
      else .scat (a.deriv c) b
  | .alt a b => .salt (a.deriv c) (b.deriv c)
  | .star a => .scat (a.deriv c) (.star a)

/-- Full match of a regular expression against a string. -/
def reMatchFull (r : RE) (s : Str) : Bool :=
  (s.foldl (fun r c => r.deriv c) r).nullable

/-- Does the pattern match some prefix of the string? -/
def reMatchSomePrefix : RE → Str → Bool
  | r, [] => r.nullable
  | r, c :: rest => r.nullable || reMatchSomePrefix (r.deriv c) rest

/-- `re.search`: does the pattern match starting at some position? -/
def reSearch (r : RE) : Str → Bool
  | [] => r.nullable
  | c :: rest => reMatchSomePrefix r (c :: rest) || reSearch r rest

/-- Literal-string pattern. -/
def rlit (s : String) : RE :=
  s.data.foldr (fun c r => RE.scat (.cls (fun x => x = c)) r) .eps

/-- N-ary alternation. -/
def raltN (l : List RE) : RE := l.foldr RE.salt .emp

/-- `r+`. -/
def rplus (r : RE) : RE := .scat r (.star r)

/-- `r?`. -/
def ropt (r : RE) : RE := .salt r .eps

/-- `\d`. -/
def digitC : RE := .cls Char.isDigit

/-- `\s` (Python whitespace, modelled by `Char.isWhitespace`). -/
def spaceC : RE := .cls Char.isWhitespace

/-- `.` (any character except a newline; `re.DOTALL` is never used). -/
def dotC : RE := .cls (fun c => c ≠ '\n')

/-! ## Word boundaries

Python's `\b` matches where exactly one of the two neighbouring positions
holds a word character (`[A-Za-z0-9_]` for the ASCII text being validated). -/

/-- A word character in the sense of `re`'s `\b` (ASCII). -/
def isWordChar (c : Char) : Bool := c.isAlphanum || c = '_'

/-- Is the character at index `i` a word character (out of range counts as
a non-word position)? -/
def wordAt (s : Str) (i : Nat) : Bool :=
  match s.drop i with
  | c :: _ => isWordChar c
  | [] => false

/-- `\b` at position `i` of `s`. -/
def boundaryAt (s : Str) (i : Nat) : Bool :=
  (if i = 0 then false else wordAt s (i - 1)) != wordAt s i

/-- Does `\b<kw>\b` match at position `i`? -/
def matchWordAt (kw s : Str) (i : Nat) : Bool :=
  boundaryAt s i && isPrefixB kw (s.drop i) && boundaryAt s (i + kw.length)

/-- `re.search(r"\b" + re.escape(kw) + r"\b", s)`. -/
def wholeWordSearch (kw s : Str) : Bool :=
  (List.range (s.length + 1)).any (matchWordAt kw s)

/-! ## `backend_py/chatbot/security.py` — `SecurityValidator` -/

/-- `SecurityValidator.DANGEROUS_KEYWORDS` (verbatim, including the entries
with trailing spaces). -/
def DANGEROUS_KEYWORDS : List Str :=
  [ "drop".data, "delete".data, "update".data, "insert".data, "alter".data,
    "truncate".data, "exec".data, "execute".data, "into outfile".data,
    "load_file".data, "create".data, "grant".data, "revoke".data,
    "commit".data, "rollback".data, "savepoint".data, "set ".data,
    "call ".data, "copy ".data, "do ".data, "lock ".data, "vacuum".data,
    "reindex".data, "cluster".data, "comment on".data,
    "security definer".data, "pg_".data, "information_schema".data ]

/-- Pattern `;\s*(?:drop|delete|update|insert|alter|truncate)`. -/
def dangerousPat1 : RE :=
  .scat (rlit ";") (.scat (.star spaceC)
    (raltN [rlit "drop", rlit "delete", rlit "update", rlit "insert",
            rlit "alter", rlit "truncate"]))

/-- Pattern `union\s+(?:all\s+)?select`. -/
def dangerousPat5 : RE :=
  .scat (rlit "union") (.scat (rplus spaceC)
    (.scat (ropt (.scat (rlit "all") (rplus spaceC))) (rlit "select")))

/-- Pattern `'\s*or\s+'?\d*'?\s*=\s*'?\d*`. -/
def dangerousPat6 : RE :=
  .scat (rlit "'") (.scat (.star spaceC) (.scat (rlit "or")
    (.scat (rplus spaceC) (.scat (ropt (rlit "'")) (.scat (.star digitC)
      (.scat (ropt (rlit "'")) (.scat (.star spaceC) (.scat (rlit "=")
        (.scat (.star spaceC) (.scat (ropt (rlit "'")) (.star digitC)))))))))))

/-- Pattern `'\s*;\s*--`. -/
def dangerousPat7 : RE :=
  .scat (rlit "'") (.scat (.star spaceC)
    (.scat (rlit ";") (.scat (.star spaceC) (rlit "--"))))

/-- `SecurityValidator.DANGEROUS_INPUT_PATTERNS` joined by `|` and compiled
with `re.IGNORECASE` (the subject is lower-cased before searching). -/
def dangerousRE : RE :=
  raltN [ dangerousPat1, rlit "--", rlit "/*", rlit "*/",
          dangerousPat5, dangerousPat6, dangerousPat7 ]

/-- `self._dangerous_pattern.search(text)` (case-insensitive). -/
def dangerousPatternSearch (text : Str) : Bool := reSearch dangerousRE (pyLower text)

/-- `SecurityValidator.MAX_QUERY_LENGTH`. -/
def MAX_QUERY_LENGTH : Nat := 2000

/-- `SecurityValidator.validate_input`. -/
def validate_input (text : Str) : Bool × Str :=
  if text = [] ∨ pyStrip text = [] then (false, "Empty input".data)
  else
    let textLower := pyLower text
    if DANGEROUS_KEYWORDS.any (fun kw => containsSub kw textLower) then
      (false, "Invalid input detected".data)
    else if dangerousPatternSearch text then
      (false, "Invalid input detected".data)
    else (true, [])

/-- The literal placeholder token `{{user_id}}` (braces written with
hexadecimal escapes). -/
def PLACEHOLDER : Str := "\x7b\x7buser_id\x7d\x7d".data

/-- Pattern `;\s*select` (multi-statement guard). -/
def semiSelectRE : RE := .scat (rlit ";") (.scat (.star spaceC) (rlit "select"))

/-- `SecurityValidator.validate_sql` (the `user_id` argument is unused by the
source as well). -/
def validate_sql (sql : Str) (user_id : Str) : Bool × Str :=
  if sql = [] ∨ pyStrip sql = [] then (false, "Empty SQL query".data)
  else
    let sqlClean := pyStrip sql
    let sqlLower := pyLower sqlClean
    if MAX_QUERY_LENGTH < sqlClean.length then (false, "Query too complex".data)
    else if ¬ isPrefixB "select".data (pyLStrip sqlLower) then
      (false, "Only SELECT queries are allowed".data)
    else if DANGEROUS_KEYWORDS.any (fun kw => wholeWordSearch kw sqlLower) then
      (false, "Invalid query detected".data)
    else if dangerousPatternSearch sqlClean then
      (false, "Invalid query detected".data)
    else if reSearch semiSelectRE sqlLower then
      (false, "Multiple statements not allowed".data)
    else if ¬ containsSub PLACEHOLDER sqlClean then
      (false, "Query must include user filter".data)
    else (true, [])

/-! ## `backend_py/chatbot/query_generator.py` — `QueryGenerator`

The LLM call itself is external; `generate` is modelled with the raw LLM
response text as a parameter (`none` models the call raising, which the
source catches and converts to `None`). -/

/-- The fenced-code-block part of `QueryGenerator._extract_sql`:
prefer a ```sql fence, else any ``` fence, else the text unchanged. -/
def fencedExtract (t : Str) : Str :=
  if containsSub "```sql".data (pyLower t) then
    match findSubstr "```sql".data (pyLower t) with
    | some i =>
        let start := i + 6
        match findSubstrFrom "```".data t start with
        | some e => if start < e then pyStrip ((t.drop start).take (e - start)) else t
        | none => t
    | none => t
  else if containsSub "```".data t then
    match findSubstr "```".data t with
    | some i =>
        let start := i + 3
        match findSubstrFrom "```".data t start with
        | some e => if start < e then pyStrip ((t.drop start).take (e - start)) else t
        | none => t
    | none => t
  else t

/-- The line-accumulation loop of `_extract_sql`: set `in_sql` on a line whose
stripped lower-casing starts with `select`, collect lines while `in_sql`,
stop after a line containing `;`. -/
def collectSqlLines : List Str → Bool → List Str
  | [], _ => []
  | line :: rest, inSql =>
      let inSql' := if isPrefixB "select".data (pyLower (pyStrip line)) then true else inSql
      if inSql' then
        if ';' ∈ line then [line]
        else line :: collectSqlLines rest true
      else collectSqlLines rest inSql'

/-- `QueryGenerator._extract_sql`. -/
def extract_sql (text : Str) : Option Str :=
  if text = [] then none
  else
    let t := fencedExtract (pyStrip text)
    let sqlLines := collectSqlLines (splitNl t) false
    if sqlLines ≠ [] then
      let sql := pyStrip (pyJoin "\n".data sqlLines)
      some (if isSuffixB ";".data sql then sql else sql ++ ";".data)
    else if isPrefixB "select".data (pyLower t) then
      let sql := pyStrip t
      some (if isSuffixB ";".data sql then sql else sql ++ ";".data)
    else none

/-- The four consecutive braces `{{{{user_id}}}}` that the source's final
`str.replace` normalises back to the placeholder. -/
def QUADBRACE : Str := "\x7b\x7b\x7b\x7buser_id\x7d\x7d\x7d\x7d".data

/-- `t.user_id = '{{user_id}}' AND ` — the text injected after `WHERE `
(the Python f-string collapses `{{{{` to `{{`). -/
def WHERE_INJECT : Str := "t.user_id = '\x7b\x7buser_id\x7d\x7d' AND ".data

/-- ` WHERE t.user_id = '{{user_id}}' ` — the clause spliced in after the
`FROM <table>` reference. -/
def FROM_INJECT : Str := " WHERE t.user_id = '\x7b\x7buser_id\x7d\x7d' ".data

/-- `QueryGenerator._ensure_user_id_placeholder`. -/
def ensure_user_id_placeholder (sql : Str) : Str :=
  if containsSub PLACEHOLDER sql then sql
  else
    let sqlLower := pyLower sql
    let sql' :=
      if containsSub " where ".data sqlLower then
        if ¬ containsSub "t.user_id".data sqlLower ∧ ¬ containsSub "user_id".data sqlLower then
          match findSubstr " where ".data sqlLower with
          | some whereIdx =>
              sql.take (whereIdx + 7) ++ WHERE_INJECT ++ sql.drop (whereIdx + 7)
          | none => sql
        else sql
      else
        match findSubstr " from ".data sqlLower with
        | some fromIdx =>
            if 0 < fromIdx then
              let tableEnd :=
                match findSubstrFrom " ".data sqlLower (fromIdx + 6) with
                | some e => e
                | none => sql.length - 1
              let restOfQuery := sql.drop tableEnd
              let firstPart := sql.take tableEnd
              if isSuffixB ";".data (pyStrip restOfQuery) then
                firstPart ++ FROM_INJECT ++ pyStrip (pyRStripSemi restOfQuery) ++ ";".data
              else
                firstPart ++ FROM_INJECT ++ restOfQuery
            else sql
        | none => sql
    replaceAll sql' QUADBRACE PLACEHOLDER

/-- `QueryGenerator.generate`, with the raw LLM response as the `llm`
parameter (`none` means the model call raised and was caught). -/
def generate (question : Str) (llm : Option Str) : Option Str :=
  if question = [] ∨ pyStrip question = [] then none
  else
    match llm with
    | none => none
    | some text =>
        match extract_sql text with
        | none => none
        | some sql => some (ensure_user_id_placeholder sql)

/-! ## `backend_py/chatbot/response_formatter.py` — value model

Row values cover the scalar types the formatter inspects: SQL `NULL`
(Python `None`), integers, `Decimal` amounts (modelled in cents, two decimal
places), strings, and dates. -/

/-- A scalar cell value of a result row. -/
inductive Val where
  | vnone : Val
  | vint (n : Int) : Val
  | vdec (cents : Int) : Val
  | vstr (s : Str) : Val
  | vdate (y m d : Nat) : Val
deriving DecidableEq

/-- A result row: an insertion-ordered mapping from column name to value. -/
abbrev Row := List (Str × Val)

/-! ## `backend_py/chatbot/query_executor.py` — `QueryExecutor` -/

/-- `MAX_RESULTS`. -/
def MAX_RESULTS : Nat := 100

/-- `QueryExecutor._inject_user_id`: substitute the placeholder, doubling any
single quotes embedded in the user id. -/
def inject_user_id (sql user_id : Str) : Str :=
  replaceAll sql PLACEHOLDER (replaceAll user_id "'".data "''".data)

/-- `QueryExecutor._ensure_limit`. -/
def ensure_limit (sql : Str) : Str :=
  if containsSub "limit".data (pyLower sql) then sql
  else pyStrip (pyRStripSemi sql) ++ " LIMIT ".data ++ natStr MAX_RESULTS ++ ";".data

/-- `QueryExecutor.execute`, success path.  The database connection is the
oracle `db` mapping the executed statement to the rows `conn.fetch` returns;
the timeout and error raises are modelled at the service boundary. -/
def execute (sql user_id : Str) (db : Str → List Row) : List Row :=
  if sql = [] ∨ user_id = [] then []
  else
    let safeSql := ensure_limit (inject_user_id sql user_id)
    (db safeSql).take MAX_RESULTS

/-! ## `backend_py/chatbot/intent_detector.py` — `IntentDetector` -/

/-- The four intents. -/
inductive Intent where
  | query : Intent
  | expense : Intent
  | greeting : Intent
  | unknown : Intent
deriving DecidableEq

/-- `IntentDetector.QUERY_PATTERNS`, entries 1–18 (all searched with
`re.IGNORECASE`; entry 19, `\?$`, is handled by `endsWithQmark` below). -/
def QUERY_RES : List RE :=
  [ raltN [rlit "how much", rlit "cuánto", rlit "cuanto"],
    raltN [rlit "how much", rlit "cuánto", rlit "cuanto gaste",
           rlit "cuánto gasté", rlit "cuánto gastó"],
    raltN [rlit "show me", rlit "muéstrame", rlit "muestra"],
    raltN [rlit "show me", rlit "muéstrame", rlit "muestra",
           rlit "mostrame detalles", rlit "mostrame los detalles"],
    .scat (raltN [rlit "what", rlit "qué", rlit "que"])
      (.scat (rplus dotC)
        (raltN [rlit "spend", rlit "spent",
                .scat (rlit "gast") (raltN [rlit "o", rlit "é"])])),
    raltN [rlit "compare", rlit "comparar", rlit "comparison", rlit "comparame"],
    raltN [rlit "total", rlit "sum", rlit "suma"],
    raltN [rlit "average", rlit "promedio", rlit "avg"],
    .scat (raltN [rlit "which", rlit "cuál", rlit "cual"])
      (.scat (rplus dotC) (raltN [rlit "category", rlit "categoría"])),
    .scat (raltN [rlit "list", rlit "listar", rlit "lista"])
      (.scat (rplus dotC) (raltN [rlit "expense", rlit "gasto"])),
    raltN [rlit "trend", rlit "tendencia"],
    raltN [rlit "pattern", rlit "patrón"],
    raltN [rlit "top", rlit "mayor", rlit "highest", rlit "lowest"],
    raltN [rlit "breakdown", rlit "desglose"],
    raltN [rlit "analysis", rlit "análisis"],
    raltN [rlit "summary", rlit "resumen"],
    .scat (raltN [rlit "last",
                  .scat (rlit "últim")
                    (.scat (raltN [rlit "o", rlit "a"]) (ropt (rlit "s")))])
      (.scat (rplus dotC)
        (raltN [rlit "month", rlit "week", rlit "day",
                rlit "mes", rlit "semana", rlit "día"])),
    .scat (raltN [rlit "this", .scat (rlit "est") (raltN [rlit "e", rlit "a"])])
      (.scat (rplus dotC)
        (raltN [rlit "month", rlit "week", rlit "mes", rlit "semana"])) ]

/-- Pattern 19 of `QUERY_PATTERNS`, `\?$`: on the stripped text this is
exactly "ends with a question mark". -/
def endsWithQmark (t : Str) : Bool := isSuffixB "?".data t

/-- `\d{1,2}` — one or two digits. -/
def oneOrTwoDigits : RE := .scat digitC (ropt digitC)

/-- `IntentDetector.EXPENSE_PATTERNS` (searched with `re.IGNORECASE`). -/
def EXPENSE_RES : List RE :=
  [ .scat (raltN [rlit "spent", rlit "gasté", rlit "gaste"])
      (.scat (rplus spaceC) (rplus digitC)),
    .scat (rplus digitC)
      (.scat (ropt (.scat (rlit ".") oneOrTwoDigits))
        (.scat (.star spaceC)
          (raltN [rlit "€", rlit "eur",
                  .scat (rlit "euro") (ropt (rlit "s")),
                  .scat (rlit "dollar") (ropt (rlit "s")),
                  rlit "$", rlit "usd"]))),
    .scat (raltN [rlit "€", rlit "$"])
      (.scat (.star spaceC)
        (.scat (rplus digitC) (ropt (.scat (rlit ".") oneOrTwoDigits)))),
    .scat (raltN [rlit "paid", rlit "pagué", rlit "pague"])
      (.scat (rplus spaceC) (rplus digitC)),
    .scat (raltN [rlit "bought", rlit "compré", rlit "compre"]) (rplus spaceC),
    .scat (raltN [rlit "cost", rlit "costó", rlit "costo"])
      (.scat (rplus spaceC) (rplus digitC)) ]

/-- `IntentDetector.GREETING_PATTERNS`; both are anchored `^...$`, so a
`re.search` is a full match. -/
def GREETING_RES : List RE :=
  [ .scat
      (raltN [rlit "hi", rlit "hello", rlit "hey", rlit "hola",
              .scat (rlit "bueno")
                (.scat (ropt (rlit "s"))
                  (.scat (.star spaceC)
                    (raltN [.scat (rlit "día") (ropt (rlit "s")),
                            .scat (rlit "tarde") (ropt (rlit "s")),
                            .scat (rlit "noche") (ropt (rlit "s"))])))])
      (.star (.cls (fun c => c.isWhitespace || c = '!' || c = '.' || c = ','))),
    .scat
      (.scat (rlit "good")
        (.scat (rplus spaceC)
          (raltN [rlit "morning", rlit "afternoon", rlit "evening"])))
      (.star (.cls (fun c => c.isWhitespace || c = '!' || c = '.' || c = ','))) ]

/-- Does any greeting pattern match (the pattern is anchored, hence a full
match on the lower-cased text)? -/
def greetingHit (t : Str) : Bool :=
  GREETING_RES.any (fun r => reMatchFull r (pyLower t))

/-- `expense_score = sum(1 for p in expense patterns if p.search(text))`. -/
def expenseScore (t : Str) : Nat :=
  EXPENSE_RES.countP (fun r => reSearch r (pyLower t))

/-- `query_score`, counting the 18 regex patterns plus the `\?$` pattern. -/
def queryScore (t : Str) : Nat :=
  QUERY_RES.countP (fun r => reSearch r (pyLower t)) +
    (if endsWithQmark (pyLower t) then 1 else 0)

/-- First alternative of `_has_amount_pattern`'s regex:
`\d+(?:[.,]\d{1,2})?\s*(?:€|eur|usd|\$|dollars?|euros?)?`. -/
def amountRE1 : RE :=
  .scat (rplus digitC)
    (.scat (ropt (.scat (.cls (fun c => c = '.' || c = ',')) oneOrTwoDigits))
      (.scat (.star spaceC)
        (ropt (raltN [rlit "€", rlit "eur", rlit "usd", rlit "$",
                      .scat (rlit "dollar") (ropt (rlit "s")),
                      .scat (rlit "euro") (ropt (rlit "s"))]))))

/-- Second alternative, `\b(?:€|\$)\s*\d+`: a word boundary followed by a
currency sign, optional whitespace and digits. -/
def currencyBoundarySearch (t : Str) : Bool :=
  (List.range (t.length + 1)).any (fun i =>
    boundaryAt t i &&
      reMatchSomePrefix
        (.scat (raltN [rlit "€", rlit "$"]) (.scat (.star spaceC) (rplus digitC)))
        (t.drop i))

/-- `IntentDetector._has_amount_pattern` (case-insensitive search). -/
def hasAmountPattern (t : Str) : Bool :=
  reSearch amountRE1 (pyLower t) || currencyBoundarySearch (pyLower t)

/-- `IntentDetector.detect`.  Conversation history matters only through
emptiness, matching the source. -/
def detect (text : Str) (history : List (Str × Str)) : Intent :=
  if text = [] ∨ pyStrip text = [] then .unknown
  else
    let t := pyStrip text
    if greetingHit t then .greeting
    else
      let eScore := expenseScore t
      let qScore := queryScore t
      if 0 < eScore ∧ qScore ≤ eScore then .expense
      else if 0 < qScore then .query
      else if endsWithQmark t then .query
      else if hasAmountPattern t then .expense
      else if history ≠ [] then .query
      else .query

/-! ## `backend_py/chatbot/response_formatter.py` — `ResponseFormatter`

The formatter's LLM call is external: `format` takes the LLM's reply as an
`Option Str` parameter (`none` models the call raising, which the source
catches by falling back to `_fallback_format`). -/

/-- Two-digit zero-padded rendering of `n < 100`. -/
def pad2 (n : Nat) : Str := if n < 10 then '0' :: natStr n else natStr n

/-- `f"{float(value):.2f}"` for a two-decimal `Decimal` held in cents. -/
def fmt2dec (cents : Int) : Str :=
  (if cents < 0 then "-".data else []) ++
    natStr (cents.natAbs / 100) ++ ".".data ++ pad2 (cents.natAbs % 100)

/-- `int(value)` for a numeric cell (Decimal truncates toward zero). -/
def valInt : Val → Int
  | .vint n => n
  | .vdec c => c.tdiv 100
  | _ => 0

/-- `f"{float(value):.2f}"` for a numeric cell. -/
def valFloat2 : Val → Str
  | .vint n => intStr n ++ ".00".data
  | .vdec c => fmt2dec c
  | _ => []

/-- `date.strftime("%Y-%m-%d")` with zero padding. -/
def isoDate (y m d : Nat) : Str :=
  (if y < 1000 then
    (if y < 100 then (if y < 10 then "000".data else "00".data) else "0".data)
   else []) ++ natStr y ++ "-".data ++ pad2 m ++ "-".data ++ pad2 d

/-- `str(value)` for a cell value. -/
def valStr : Val → Str
  | .vnone => "None".data
  | .vint n => intStr n
  | .vdec c => fmt2dec c
  | .vstr s => s
  | .vdate y m d => isoDate y m d

/-- `any(word in key.lower() for word in words)`. -/
def keyHasAny (key : Str) (words : List Str) : Bool :=
  words.any (fun w => containsSub w (pyLower key))

/-- Is the value numeric (`isinstance(value, (int, float, Decimal))`)? -/
def isNumeric : Val → Bool
  | .vint _ => true
  | .vdec _ => true
  | _ => false

/-- `ResponseFormatter._empty_response`. -/
def empty_response (question : Str) : Str :=
  let ql := pyLower question
  if ["how much".data, "cuánto".data, "total".data].any (fun w => containsSub w ql) then
    "You haven't recorded any expenses matching that criteria yet.".data
  else if ["show".data, "list".data, "muestra".data].any (fun w => containsSub w ql) then
    "No expenses found matching your request.".data
  else "I couldn't find any data matching your question.".data

/-- `ResponseFormatter._format_single_value` (the row is nonempty whenever the
source reaches this helper; an empty row yields the empty string). -/
def format_single_value (row : Row) (_question : Str) : Str :=
  match row with
  | [] => []
  | (key, value) :: _ =>
      match value with
      | .vnone => "No data found for your query.".data
      | v =>
          if isNumeric v then
            if keyHasAny key ["amount".data, "total".data, "sum".data, "spent".data] then
              "€".data ++ valFloat2 v
            else if keyHasAny key ["count".data, "number".data] then
              intStr (valInt v) ++ " transactions".data
            else if keyHasAny key ["average".data, "avg".data] then
              "€".data ++ valFloat2 v ++ " on average".data
            else valStr v
          else valStr v

/-- `ResponseFormatter._format_value` (dates ISO, Decimals as euro amounts,
everything else stringified; the model carries no Python floats). -/
def format_value : Val → Str
  | .vdate y m d => isoDate y m d
  | .vdec c => "€".data ++ fmt2dec c
  | v => valStr v

/-- The identifier columns dropped by the multi-row fallback branch and by
`_make_serializable`. -/
def ID_COLUMNS : List Str :=
  ["id".data, "user_id".data, "account_id".data, "category_id".data]

/-- One `**key**: value` item of the single-row fallback rendering. -/
def fmtItem (k : Str) (v : Val) : Str :=
  "**".data ++ k ++ "**: ".data ++ format_value v

/-- The non-identifier, non-null rendered fields of one row (multi-row
fallback branch). -/
def rowParts (row : Row) : List Str :=
  row.filterMap (fun kv =>
    if kv.2 ≠ Val.vnone ∧ kv.1 ∉ ID_COLUMNS then some (format_value kv.2) else none)

/-- The numbered lines of the multi-row fallback branch (`enumerate(..., 1)`;
rows whose parts are all filtered away produce no line). -/
def numberedLines : Nat → List Row → List Str
  | _, [] => []
  | i, row :: rest =>
      let parts := rowParts row
      (if parts = [] then [] else [natStr i ++ ". ".data ++ pyJoin " | ".data parts]) ++
        numberedLines (i + 1) rest

/-- `ResponseFormatter._fallback_format`. -/
def fallback_format (results : List Row) (question : Str) : Str :=
  if results.length = 1 then
    pyJoin "\n".data
      ((results.headD []).filterMap (fun kv =>
        if kv.2 = Val.vnone then none else some (fmtItem kv.1 kv.2)))
  else
    let lines := numberedLines 1 (results.take 10)
    let lines :=
      if 10 < results.length then
        lines ++ ["\n... and ".data ++ natStr (results.length - 10) ++ " more".data]
      else lines
    if lines = [] then "No data to display.".data else pyJoin "\n".data lines

/-- `ResponseFormatter._make_serializable`: drop identifier columns, convert
dates to ISO strings, convert Decimals to plain numbers. -/
def serializableVal : Val → Val
  | .vdate y m d => .vstr (isoDate y m d)
  | v => v

/-- `ResponseFormatter._make_serializable`. -/
def make_serializable (results : List Row) : List Row :=
  results.map (fun row =>
    row.filterMap (fun kv =>
      if kv.1 ∈ ID_COLUMNS then none else some (kv.1, serializableVal kv.2)))

/-- `ResponseFormatter.format`, with the LLM reply as the `llm` parameter
(`none` models the generation call raising, handled by the fallback). -/
def format (results : List Row) (question : Str) (llm : Option Str) : Str :=
  if results = [] then empty_response question
  else if results.length = 1 ∧ (results.headD []).length = 1 then
    format_single_value (results.headD []) question
  else
    match llm with
    | some content =>
        let formatted := pyStrip content
        if 20 < results.length then
          formatted ++ "\n\n(Showing first 20 of ".data ++
            natStr results.length ++ " results)".data
        else formatted
    | none => fallback_format results question

/-! ## `backend_py/chatbot/service.py` — `ChatbotService` -/

/-- `ChatbotService.GREETING_RESPONSE`. -/
def GREETING_RESPONSE : Str :=
  ("Hello! I can help you understand your expenses. Try asking me:\n" ++
   "- How much did I spend this month?\n" ++
   "- What are my top spending categories?\n" ++
   "- Show me my food expenses\n" ++
   "- Compare this month to last month\n\n" ++
   "Or just tell me about an expense to log it!").data

/-- The static guidance reply for an `unknown` intent. -/
def UNKNOWN_RESPONSE : Str :=
  ("I'm not sure what you're asking. You can:\n" ++
   "- Ask about your expenses (e.g., 'How much did I spend this month?')\n" ++
   "- Log an expense (e.g., 'Spent 25 on lunch')").data

/-- `ChatResponse`. -/
structure ChatResponse where
  answer : Str := []
  intent : Intent := .unknown
  should_log_expense : Bool := false
  data : Option (List Row) := none
  error : Option Str := none
  sql : Option Str := none
deriving DecidableEq

/-- The behaviour of `executor.execute` as observed by `_handle_query`:
either it returns (with the database oracle `db` supplying the fetched rows),
or it raises `TimeoutError`, or it raises some other exception with message
`msg` (`str(e)`). -/
inductive ExecOutcome where
  | ok (db : Str → List Row) : ExecOutcome
  | timeout : ExecOutcome
  | err (msg : Str) : ExecOutcome

/-- `ChatbotService._handle_query`.  The two model calls are supplied as the
`genLlm` and `fmtLlm` parameters, the database/raise behaviour as `exec`. -/
def handle_query (question user_id : Str) (_history : List (Str × Str))
    (genLlm : Option Str) (exec : ExecOutcome) (fmtLlm : Option Str) : ChatResponse :=
  match generate question genLlm with
  | none =>
      { answer := "I couldn't understand your question. Could you try rephrasing it?".data,
        intent := .query,
        error := some "Failed to generate query".data }
  | some sql =>
      let v := validate_sql sql user_id
      if v.1 = false then
        { answer := "I couldn't process that query safely. Please try a different question.".data,
          intent := .query,
          error := some v.2 }
      else
        match exec with
        | .timeout =>
            { answer := "The query took too long. Please try a simpler question.".data,
              intent := .query,
              error := some "Query timeout".data }
        | .err msg =>
            { answer := "Sorry, I encountered an error processing your request. Please try again.".data,
              intent := .query,
              error := some msg }
        | .ok db =>
            let results := execute sql user_id db
            { answer := format results question fmtLlm,
              intent := .query,
              data := some results,
              sql := some sql }

/-- `ChatbotService.process_message`. -/
def process_message (text user_id : Str) (history : List (Str × Str))
    (genLlm : Option Str) (exec : ExecOutcome) (fmtLlm : Option Str) : ChatResponse :=
  if text = [] ∨ pyStrip text = [] then
    { answer := "Please send a message.".data, intent := .unknown }
  else
    let t := pyStrip text
    let v := validate_input t
    if v.1 = false then
      { answer := "I couldn't process that message. Please try rephrasing.".data,
        intent := .unknown,
        error := some v.2 }
    else
      match detect t history with
      | .greeting => { answer := GREETING_RESPONSE, intent := .greeting }
      | .expense => { answer := [], intent := .expense, should_log_expense := true }
      | .unknown => { answer := UNKNOWN_RESPONSE, intent := .unknown }
      | .query => handle_query t user_id history genLlm exec fmtLlm

/-! ## Statement helpers -/

/-- A row with the identifier columns removed (used to state that the
multi-row fallback rendering never depends on them). -/
def dropIdColumns (row : Row) : Row := row.filter (fun kv => kv.1 ∉ ID_COLUMNS)

/-- Follows the spec's words: "the statement has no `LIMIT` clause" — a
`LIMIT` clause is the keyword `limit` occurring as a whole word.  Stated only
to compare the spec's clause-level reading with the source's substring
check. -/
def specHasLimitClause (sql : Str) : Bool :=
  wholeWordSearch "limit".data (pyLower sql)

/-! # Helper lemmas -/

theorem isPrefixB_iff : ∀ p s : Str, isPrefixB p s = true ↔ p <+: s
  | [], s => by simp [isPrefixB]
  | c :: p, [] => by simp [isPrefixB]
  | c :: p, d :: s => by
      simp [isPrefixB, List.cons_prefix_cons, isPrefixB_iff p s]

theorem prefix_infixOf {p s : Str} (h : p <+: s) : p <:+: s := by
  obtain ⟨t, ht⟩ := h
  exact ⟨[], t, by simpa using ht⟩

theorem infix_append_right {l x y : Str} (h : l <:+: x) : l <:+: x ++ y := by
  obtain ⟨s, t, ht⟩ := h
  exact ⟨s, t ++ y, by rw [← ht]; simp⟩

theorem infix_append_left {l x y : Str} (h : l <:+: y) : l <:+: x ++ y := by
  obtain ⟨s, t, ht⟩ := h
  exact ⟨x ++ s, t, by rw [← ht]; simp⟩

theorem containsSub_iff : ∀ (p s : Str), containsSub p s = true ↔ p <:+: s
  | [], [] => by simp [containsSub, findSubstr, isPrefixB]
  | c :: cs, [] => by simp [containsSub, findSubstr, isPrefixB]
  | p, d :: rest => by
      rw [containsSub, findSubstr]
      cases hp : isPrefixB p (d :: rest) with
      | true =>
          simp only [if_pos rfl, Option.isSome_some]
          exact iff_of_true rfl (prefix_infixOf ((isPrefixB_iff _ _).1 hp))
      | false =>
          have hnp : ¬ p <+: d :: rest := fun hh => by
            rw [(isPrefixB_iff _ _).2 hh] at hp; cases hp
          have hrec : containsSub p rest = true ↔ p <:+: rest := containsSub_iff p rest
          rw [containsSub] at hrec
          simp only [Bool.false_eq_true, if_false]
          rw [List.infix_cons_iff]
          cases hf : findSubstr p rest with
          | none =>
              rw [hf] at hrec
              simp only [Option.isSome_none, Bool.false_eq_true, false_iff] at hrec ⊢
              simp only [Option.map_none', Option.isSome_none, Bool.false_eq_true, false_iff]
              rintro (h | h)
              · exact hnp h
              · exact hrec h
          | some i =>
              rw [hf] at hrec
              simp only [Option.isSome_some, true_iff] at hrec
              simp only [Option.map_some', Option.isSome_some, true_iff]
              exact Or.inr hrec

theorem mem_infix_pyJoin {sep a : Str} : ∀ {l : List Str}, a ∈ l → a <:+: pyJoin sep l
  | [], h => absurd h (List.not_mem_nil a)
  | [x], h => by
      rw [List.mem_singleton] at h
      subst h
      exact List.infix_refl _
  | x :: y :: rest, h => by
      rw [pyJoin]
      rcases List.mem_cons.1 h with rfl | h2
      · exact infix_append_right (infix_append_right (List.infix_refl _))
      · exact infix_append_left (mem_infix_pyJoin h2)

theorem replaceAllFuel_self_or_rep :
    ∀ (fuel : Nat) (s pat rep : Str),
      replaceAllFuel fuel s pat rep = s ∨ rep <:+: replaceAllFuel fuel s pat rep
  | 0, _, _, _ => Or.inl rfl
  | fuel + 1, s, pat, rep => by
      simp only [replaceAllFuel]
      split
      · exact Or.inr ⟨[], _, rfl⟩
      · cases s with
        | nil => exact Or.inl rfl
        | cons c rest =>
            show c :: replaceAllFuel fuel rest pat rep = c :: rest ∨
              rep <:+: c :: replaceAllFuel fuel rest pat rep
            rcases replaceAllFuel_self_or_rep fuel rest pat rep with h | h
            · exact Or.inl (by rw [h])
            · exact Or.inr (List.infix_cons h)

theorem replaceAll_self_or_rep (s pat rep : Str) :
    replaceAll s pat rep = s ∨ rep <:+: replaceAll s pat rep :=
  replaceAllFuel_self_or_rep s.length s pat rep

theorem pyStrip_eq_nil_iff {s : Str} :
    pyStrip s = [] ↔ ∀ c ∈ s, c.isWhitespace = true := by
  rw [pyStrip, pyLStrip, pyRStripWs, List.dropWhile_eq_nil_iff]
  constructor
  · intro h c hc
    have hcrev : c ∈ s.reverse := List.mem_reverse.2 hc
    rw [← List.takeWhile_append_dropWhile (p := Char.isWhitespace) (l := s.reverse)] at hcrev
    rcases List.mem_append.1 hcrev with h1 | h1
    · exact List.mem_takeWhile_imp h1
    · exact h _ (List.mem_reverse.2 h1)
  · intro h c hc
    exact h c (List.mem_reverse.1 (List.dropWhile_sublist _ |>.subset (List.mem_reverse.1 hc)))

theorem char_toLower_of_ws {c : Char} (h : c.isWhitespace = true) : c.toLower = c := by
  have hd : ((c = ' ' ∨ c = '\t') ∨ c = '\r') ∨ c = '\n' := by
    simpa [Char.isWhitespace, decide_eq_true_eq] using h
  rcases hd with ((rfl | rfl) | rfl) | rfl <;> decide

theorem pyStrip_ne_nil_of_kw {text kw : Str}
    (hne : kw.any (fun c => ¬ c.isWhitespace) = true)
    (hinf : kw <:+: pyLower text) :
    pyStrip text ≠ [] ∧ text ≠ [] := by
  obtain ⟨c, hc, hcw⟩ := List.any_eq_true.1 hne
  have hcl : c ∈ pyLower text := hinf.subset hc
  obtain ⟨c0, hc0, hc0l⟩ := List.mem_map.1 hcl
  have hc0w : c0.isWhitespace = false := by
    cases hw : c0.isWhitespace with
    | false => rfl
    | true =>
        rw [char_toLower_of_ws hw] at hc0l
        subst hc0l
        simp [hw] at hcw
  constructor
  · intro hnil
    have := pyStrip_eq_nil_iff.1 hnil c0 hc0
    rw [this] at hc0w
    cases hc0w
  · intro hnil
    subst hnil
    cases hc0

/-! # Claim theorems -/

/-- C3: for every input SQL string, user id and database behaviour, the
executor returns at most 100 rows, regardless of any `LIMIT` clause in the
SQL and regardless of how many rows the connection returns. -/
theorem c3_row_cap (sql user_id : Str) (db : Str → List Row) :
    (execute sql user_id db).length ≤ 100 := by
  rw [execute]
  split
  · simp
  · calc ((db (ensure_limit (inject_user_id sql user_id))).take MAX_RESULTS).length
        ≤ MAX_RESULTS := by
          rw [List.length_take]
          exact min_le_left _ _
      _ ≤ 100 := le_refl _

/-- C10: a result set of exactly one row with exactly one column whose value
is `None` (e.g. `SUM` over zero rows) is formatted as the fixed string
`No data found for your query.` — not a zero-row canned message and not the
empty string — on every formatter path. -/
theorem c10_null_scalar (k question : Str) (llm : Option Str) :
    format [[(k, Val.vnone)]] question llm = "No data found for your query.".data ∧
    format [[(k, Val.vnone)]] question llm ≠ empty_response question ∧
    format [[(k, Val.vnone)]] question llm ≠ [] := by
  have h : format [[(k, Val.vnone)]] question llm = "No data found for your query.".data := rfl
  refine ⟨h, ?_, by rw [h]; decide⟩
  rw [h, empty_response]
  split
  · decide
  · split
    · decide
    · decide

/-- C10 witness: the fixed message at a concrete aggregate column. -/
theorem c10_null_scalar_witness :
    format [[("total".data, Val.vnone)]] "how much".data none =
      "No data found for your query.".data :=
  (c10_null_scalar "total".data "how much".data none).1

/-- C7 counterexample: a statement with no `LIMIT` clause (no whole word
`limit`) whose identifier `unlimited` contains the letters `limit`: the
executor appends nothing, so the executed statement carries no `LIMIT 100`
cap. -/
theorem c7_limit_counterexample :
    specHasLimitClause "select unlimited from transactions;".data = false ∧
    ensure_limit "select unlimited from transactions;".data =
      "select unlimited from transactions;".data ∧
    containsSub "limit 100".data
      (pyLower (ensure_limit "select unlimited from transactions;".data)) = false :=
  ⟨by decide, by decide, by decide⟩

/-- C7 (amended): the executor appends ` LIMIT 100;` (after stripping
trailing semicolons and whitespace) exactly when the lower-cased SQL does not
contain `limit` as a substring; a statement without a `LIMIT` clause that
contains those letters inside an identifier is left unchanged. -/
theorem c7_limit_amended (sql : Str)
    (h : containsSub "limit".data (pyLower sql) = false) :
    ensure_limit sql = pyStrip (pyRStripSemi sql) ++ " LIMIT 100;".data := by
  rw [ensure_limit, if_neg (by simp [h])]
  have h100 : " LIMIT ".data ++ (natStr MAX_RESULTS ++ ";".data) = " LIMIT 100;".data := by
    decide
  rw [List.append_assoc, List.append_assoc, h100]

/-- C7 witness: concrete append of the cap. -/
theorem c7_limit_amended_witness :
    ensure_limit "select a from t;".data =
      pyStrip (pyRStripSemi "select a from t;".data) ++ " LIMIT 100;".data :=
  c7_limit_amended _ (by decide)

/-- C2: a single `SELECT` statement (starts with `select`, no second `select`
after a statement terminator), containing the `{{user_id}}` placeholder, at
most 2000 characters after trimming, with no denylist keyword as a whole
word and no injection-shaped substring, passes `validate_sql` with an empty
reason.  (The code performs no schema check, so the claim's
"references only the documented schema" hypothesis is not needed.) -/
theorem c2_validator_completeness (sql user_id : Str)
    (hsel : isPrefixB "select".data (pyLStrip (pyLower (pyStrip sql))) = true)
    (hlen : (pyStrip sql).length ≤ 2000)
    (hkw : DANGEROUS_KEYWORDS.any (fun kw => wholeWordSearch kw (pyLower (pyStrip sql))) = false)
    (hpat : dangerousPatternSearch (pyStrip sql) = false)
    (hmulti : reSearch semiSelectRE (pyLower (pyStrip sql)) = false)
    (hph : containsSub PLACEHOLDER (pyStrip sql) = true) :
    validate_sql sql user_id = (true, []) := by
  have hblank : pyStrip sql ≠ [] := by
    intro hnil
    rw [hnil] at hsel
    exact absurd hsel (by decide)
  have hb : ¬ (sql = [] ∨ pyStrip sql = []) := by
    rintro (rfl | hh)
    · exact hblank rfl
    · exact hblank hh
  rw [validate_sql, if_neg hb]
  simp only
  rw [if_neg (by rw [MAX_QUERY_LENGTH]; exact Nat.not_lt.mpr hlen)]
  rw [if_neg (by simp [hsel])]
  rw [if_neg (by simp [hkw])]
  rw [if_neg (by simp [hpat])]
  rw [if_neg (by simp [hmulti])]
  rw [if_neg (by simp [hph])]

/-- C2 witness: a concrete safe statement is accepted. -/
theorem c2_validator_completeness_witness :
    validate_sql
      "select sum(amount) from transactions t where t.user_id = '\x7b\x7buser_id\x7d\x7d';".data
      "u1".data = (true, []) :=
  c2_validator_completeness _ _ (by decide) (by decide) (by decide) (by decide)
    (by decide) (by decide)

/-- C8: any input whose lower-casing contains a denylist keyword (including
the trailing-space entries `do `, `set `, `call `, `copy `, `lock `) as a
raw substring is rejected by `validate_input` with reason
`Invalid input detected`; in particular the ordinary English question
`How much do I spend per week?` is rejected before intent classification,
and the orchestrator replies with the generic couldn't-process message. -/
theorem c8_denylist_substring_rejection (text : Str)
    (hkw : DANGEROUS_KEYWORDS.any (fun kw => containsSub kw (pyLower text)) = true) :
    validate_input text = (false, "Invalid input detected".data) ∧
    ∀ (user_id : Str) (history : List (Str × Str)) (genLlm : Option Str)
      (exec : ExecOutcome) (fmtLlm : Option Str),
      process_message "How much do I spend per week?".data user_id history genLlm exec fmtLlm =
        { answer := "I couldn't process that message. Please try rephrasing.".data,
          intent := Intent.unknown,
          error := some "Invalid input detected".data } := by
  constructor
  · obtain ⟨kw, hmem, hcs⟩ := List.any_eq_true.1 hkw
    have hany : ∀ kw ∈ DANGEROUS_KEYWORDS, kw.any (fun c => ¬ c.isWhitespace) = true := by
      decide
    have hne := pyStrip_ne_nil_of_kw (hany kw hmem) ((containsSub_iff _ _).1 hcs)
    have hb : ¬ (text = [] ∨ pyStrip text = []) := by
      rintro (rfl | hh)
      · exact hne.2 rfl
      · exact hne.1 hh
    rw [validate_input, if_neg hb]
    simp only
    rw [if_pos hkw]
  · intro user_id history genLlm exec fmtLlm
    rfl

/-- C8 witness: the concrete English question contains the keyword `do `
and is rejected. -/
theorem c8_denylist_substring_rejection_witness :
    validate_input "How much do I spend per week?".data =
      (false, "Invalid input detected".data) :=
  (c8_denylist_substring_rejection "How much do I spend per week?".data (by decide)).1

/-- Shared helper: when the repair step fires (placeholder already present,
or a `WHERE`-branch injection with no `user_id` substring, or a `FROM`-branch
injection), the repaired SQL contains the placeholder. -/
theorem ensure_places_placeholder (sql : Str)
    (hcond : containsSub PLACEHOLDER sql = true ∨
      (containsSub " where ".data (pyLower sql) = true ∧
        containsSub "user_id".data (pyLower sql) = false) ∨
      (containsSub " where ".data (pyLower sql) = false ∧
        ∃ i, findSubstr " from ".data (pyLower sql) = some i ∧ 0 < i)) :
    containsSub PLACEHOLDER (ensure_user_id_placeholder sql) = true := by
  by_cases hph : containsSub PLACEHOLDER sql = true
  · rw [ensure_user_id_placeholder, if_pos hph]
    exact hph
  · have hph' : containsSub PLACEHOLDER sql = false := by
      cases h : containsSub PLACEHOLDER sql
      · rfl
      · exact absurd h hph
    rcases hcond with h | ⟨hw, hu⟩ | ⟨hw, i, hf, hi⟩
    · exact absurd h hph
    · have htuid : containsSub "t.user_id".data (pyLower sql) = false := by
        cases htu : containsSub "t.user_id".data (pyLower sql)
        · rfl
        · have h1 : "t.user_id".data <:+: pyLower sql := (containsSub_iff _ _).1 htu
          have h2 : "user_id".data <:+: "t.user_id".data :=
            (containsSub_iff _ _).1 (by decide)
          have h3 := (containsSub_iff "user_id".data (pyLower sql)).2 (h2.trans h1)
          rw [h3] at hu
          cases hu
      obtain ⟨i, hfw⟩ := Option.isSome_iff_exists.1 hw
      rw [ensure_user_id_placeholder, if_neg hph]
      simp only [hw, if_pos, htuid, hu, hfw, Bool.false_eq_true, not_false_eq_true,
        and_self, if_true]
      have hinj : PLACEHOLDER <:+:
          sql.take (i + 7) ++ WHERE_INJECT ++ sql.drop (i + 7) := by
        have h0 : PLACEHOLDER <:+: WHERE_INJECT := (containsSub_iff _ _).1 (by decide)
        exact h0.trans (List.infix_append _ _ _)
      rcases replaceAll_self_or_rep
          (sql.take (i + 7) ++ WHERE_INJECT ++ sql.drop (i + 7)) QUADBRACE PLACEHOLDER
        with he | hr
      · rw [he]
        exact (containsSub_iff _ _).2 hinj
      · exact (containsSub_iff _ _).2 hr
    · rw [ensure_user_id_placeholder, if_neg hph]
      simp only [hw, hf, hi, if_pos, Bool.false_eq_true, if_false]
      have hFI : PLACEHOLDER <:+: FROM_INJECT := (containsSub_iff _ _).1 (by decide)
      split
      · rcases replaceAll_self_or_rep _ QUADBRACE PLACEHOLDER with he | hr
        · rw [he]
          refine (containsSub_iff _ _).2 ?_
          exact infix_append_right (infix_append_right (infix_append_left (infix_append_right hFI)))
        · exact (containsSub_iff _ _).2 hr
      · rcases replaceAll_self_or_rep _ QUADBRACE PLACEHOLDER with he | hr
        · rw [he]
          refine (containsSub_iff _ _).2 ?_
          exact infix_append_right (infix_append_left hFI)
        · exact (containsSub_iff _ _).2 hr

/-- C1 counterexample: the LLM output
`select user_id from t where a = 1;` survives extraction untouched, the
repair step declines to inject (the SQL already mentions `user_id`), and
`generate` returns SQL without the `{{user_id}}` placeholder. -/
theorem c1_placeholder_counterexample :
    generate "q".data (some "select user_id from t where a = 1;".data) =
      some "select user_id from t where a = 1;".data ∧
    containsSub PLACEHOLDER "select user_id from t where a = 1;".data = false :=
  ⟨by decide, by decide⟩

/-- C1 (amended): a non-null SQL string returned by `generate` contains the
literal `{{user_id}}` provided the extracted pre-repair SQL already contains
it, or has a ` where ` and no occurrence of the substring `user_id`, or has
no ` where ` but a ` from ` at positive index (the conditions under which the
best-effort repair actually fires). -/
theorem c1_placeholder_amended (question text sqlE out : Str)
    (hext : extract_sql text = some sqlE)
    (hgen : generate question (some text) = some out)
    (hcond : containsSub PLACEHOLDER sqlE = true ∨
      (containsSub " where ".data (pyLower sqlE) = true ∧
        containsSub "user_id".data (pyLower sqlE) = false) ∨
      (containsSub " where ".data (pyLower sqlE) = false ∧
        ∃ i, findSubstr " from ".data (pyLower sqlE) = some i ∧ 0 < i)) :
    containsSub PLACEHOLDER out = true := by
  rw [generate] at hgen
  split at hgen
  · cases hgen
  · rw [hext] at hgen
    obtain rfl : ensure_user_id_placeholder sqlE = out := Option.some.inj hgen
    exact ensure_places_placeholder sqlE hcond

/-- C1 witness: a repaired generation containing the placeholder. -/
theorem c1_placeholder_amended_witness :
    containsSub PLACEHOLDER
      (ensure_user_id_placeholder "select amount from t where a = 1;".data) = true :=
  c1_placeholder_amended "q".data "select amount from t where a = 1;".data
    "select amount from t where a = 1;".data _ (by decide) (by decide)
    (Or.inr (Or.inl ⟨by decide, by decide⟩))

/-- C4 counterexample: generated SQL lacking the placeholder but containing
a `WHERE` clause where the repair does NOT insert the filter, because the
statement already contains the substring `user_id` (in its select list). -/
theorem c4_where_repair_counterexample :
    containsSub PLACEHOLDER "select user_id from transactions where amount > 10;".data = false ∧
    containsSub " where ".data
      (pyLower "select user_id from transactions where amount > 10;".data) = true ∧
    ensure_user_id_placeholder "select user_id from transactions where amount > 10;".data =
      "select user_id from transactions where amount > 10;".data ∧
    containsSub PLACEHOLDER
      (ensure_user_id_placeholder
        "select user_id from transactions where amount > 10;".data) = false :=
  ⟨by decide, by decide, by decide, by decide⟩

/-- C4 (amended): for generated SQL lacking `{{user_id}}`, containing
` where `, and — as the source additionally requires — containing no
`user_id` substring at all, the repair inserts
`t.user_id = '{{user_id}}' AND ` immediately after the first ` where `
(followed by the generator's brace-normalising replace), so the repaired
statement contains the placeholder. -/
theorem c4_where_repair_amended (sql : Str)
    (hph : containsSub PLACEHOLDER sql = false)
    (hw : containsSub " where ".data (pyLower sql) = true)
    (hu : containsSub "user_id".data (pyLower sql) = false) :
    ∃ i, findSubstr " where ".data (pyLower sql) = some i ∧
      ensure_user_id_placeholder sql =
        replaceAll (sql.take (i + 7) ++ WHERE_INJECT ++ sql.drop (i + 7))
          QUADBRACE PLACEHOLDER ∧
      containsSub PLACEHOLDER (ensure_user_id_placeholder sql) = true := by
  obtain ⟨i, hfw⟩ := Option.isSome_iff_exists.1 hw
  refine ⟨i, hfw, ?_, ?_⟩
  · have htuid : containsSub "t.user_id".data (pyLower sql) = false := by
      cases htu : containsSub "t.user_id".data (pyLower sql)
      · rfl
      · have h1 : "t.user_id".data <:+: pyLower sql := (containsSub_iff _ _).1 htu
        have h2 : "user_id".data <:+: "t.user_id".data :=
          (containsSub_iff _ _).1 (by decide)
        have h3 := (containsSub_iff "user_id".data (pyLower sql)).2 (h2.trans h1)
        rw [h3] at hu
        cases hu
    rw [ensure_user_id_placeholder, if_neg (by simp [hph])]
    simp only [hw, if_pos, htuid, hu, hfw, Bool.false_eq_true, not_false_eq_true,
      and_self, if_true]
  · exact ensure_places_placeholder sql (Or.inr (Or.inl ⟨hw, hu⟩))

/-- C4 witness: concrete repair after the first `WHERE`. -/
theorem c4_where_repair_amended_witness :
    ∃ i, findSubstr " where ".data (pyLower "select amount from exp where a = 1;".data) = some i ∧
      ensure_user_id_placeholder "select amount from exp where a = 1;".data =
        replaceAll ("select amount from exp where a = 1;".data.take (i + 7) ++ WHERE_INJECT ++
          "select amount from exp where a = 1;".data.drop (i + 7)) QUADBRACE PLACEHOLDER ∧
      containsSub PLACEHOLDER
        (ensure_user_id_placeholder "select amount from exp where a = 1;".data) = true :=
  c4_where_repair_amended "select amount from exp where a = 1;".data
    (by decide) (by decide) (by decide)

/-- C5 counterexample: a database failure whose exception message is
`division by zero` produces a response whose `error` field carries that raw
exception message — raw exception detail does reach the returned response
payload (the router forwards `error` verbatim). -/
theorem c5_error_payload_counterexample :
    (handle_query "how much did i spend?".data "u1".data []
        (some "select sum(amount) from transactions t where t.user_id = '\x7b\x7buser_id\x7d\x7d';".data)
        (ExecOutcome.err "division by zero".data) none).error =
      some "division by zero".data := by
  decide

/-- C5 (amended): `_handle_query` is total — every stage outcome maps to a
`ChatResponse` with intent `query` and a fixed user-facing answer; an
execution timeout yields the distinct `The query took too long` answer with
internal code `Query timeout`; however a generic execution failure places the
raw exception message `str(e)` in the response's `error` field (only the
`answer` field stays generic). -/
theorem c5_error_handling_amended (question user_id : Str)
    (history : List (Str × Str)) (genLlm fmtLlm : Option Str) (sql msg : Str)
    (hg : generate question genLlm = some sql)
    (hv : (validate_sql sql user_id).1 = true) :
    (handle_query question user_id history genLlm ExecOutcome.timeout fmtLlm).answer =
      "The query took too long. Please try a simpler question.".data ∧
    (handle_query question user_id history genLlm ExecOutcome.timeout fmtLlm).error =
      some "Query timeout".data ∧
    (handle_query question user_id history genLlm (ExecOutcome.err msg) fmtLlm).answer =
      "Sorry, I encountered an error processing your request. Please try again.".data ∧
    (handle_query question user_id history genLlm (ExecOutcome.err msg) fmtLlm).error =
      some msg ∧
    (∀ exec : ExecOutcome,
      (handle_query question user_id history genLlm exec fmtLlm).intent = Intent.query) := by
  have hval : ¬ ((validate_sql sql user_id).1 = false) := by simp [hv]
  refine ⟨?_, ?_, ?_, ?_, ?_⟩
  · rw [handle_query, hg]
    simp only [if_neg hval]
  · rw [handle_query, hg]
    simp only [if_neg hval]
  · rw [handle_query, hg]
    simp only [if_neg hval]
  · rw [handle_query, hg]
    simp only [if_neg hval]
  · intro exec
    rw [handle_query, hg]
    simp only [if_neg hval]
    cases exec <;> rfl

/-- C5 witness: timeout path at a concrete generation. -/
theorem c5_error_handling_amended_witness :
    (handle_query "how much?".data "u2".data []
        (some "select avg(amount) from transactions t where t.user_id = '\x7b\x7buser_id\x7d\x7d';".data)
        ExecOutcome.timeout none).answer =
      "The query took too long. Please try a simpler question.".data :=
  (c5_error_handling_amended "how much?".data "u2".data [] _ none
    "select avg(amount) from transactions t where t.user_id = '\x7b\x7buser_id\x7d\x7d';".data
    "x".data (by decide) (by decide)).1

/-- C6: for every input that is non-blank after stripping, `detect` follows
exactly the claimed decision order: greeting short-circuits; else expense if
`expense_score > 0` and `expense_score >= query_score`; else query if
`query_score > 0`; else query on a trailing `?`; else expense on a bare
amount pattern; else query when history is non-empty; else query as the
final default fallback. -/
theorem c6_intent_decision_order (text : Str) (history : List (Str × Str))
    (h : pyStrip text ≠ []) :
    (greetingHit (pyStrip text) = true → detect text history = Intent.greeting) ∧
    (greetingHit (pyStrip text) = false →
      0 < expenseScore (pyStrip text) →
      queryScore (pyStrip text) ≤ expenseScore (pyStrip text) →
      detect text history = Intent.expense) ∧
    (greetingHit (pyStrip text) = false →
      ¬ (0 < expenseScore (pyStrip text) ∧
          queryScore (pyStrip text) ≤ expenseScore (pyStrip text)) →
      0 < queryScore (pyStrip text) →
      detect text history = Intent.query) ∧
    (greetingHit (pyStrip text) = false →
      expenseScore (pyStrip text) = 0 → queryScore (pyStrip text) = 0 →
      endsWithQmark (pyStrip text) = true →
      detect text history = Intent.query) ∧
    (greetingHit (pyStrip text) = false →
      expenseScore (pyStrip text) = 0 → queryScore (pyStrip text) = 0 →
      endsWithQmark (pyStrip text) = false →
      hasAmountPattern (pyStrip text) = true →
      detect text history = Intent.expense) ∧
    (greetingHit (pyStrip text) = false →
      expenseScore (pyStrip text) = 0 → queryScore (pyStrip text) = 0 →
      endsWithQmark (pyStrip text) = false →
      hasAmountPattern (pyStrip text) = false →
      history ≠ [] →
      detect text history = Intent.query) ∧
    (greetingHit (pyStrip text) = false →
      expenseScore (pyStrip text) = 0 → queryScore (pyStrip text) = 0 →
      endsWithQmark (pyStrip text) = false →
      hasAmountPattern (pyStrip text) = false →
      history = [] →
      detect text history = Intent.query) := by
  have hb : ¬ (text = [] ∨ pyStrip text = []) := by
    rintro (rfl | hh)
    · exact h rfl
    · exact h hh
  refine ⟨?_, ?_, ?_, ?_, ?_, ?_, ?_⟩
  · intro hg
    rw [detect, if_neg hb]
    simp only [hg, if_pos]
  · intro hg he hq
    rw [detect, if_neg hb]
    simp only [hg, Bool.false_eq_true, if_false]
    rw [if_pos ⟨he, hq⟩]
  · intro hg hne hq
    rw [detect, if_neg hb]
    simp only [hg, Bool.false_eq_true, if_false]
    rw [if_neg hne, if_pos hq]
  · intro hg he hq hqm
    rw [detect, if_neg hb]
    simp only [hg, Bool.false_eq_true, if_false]
    rw [if_neg (by simp [he]), if_neg (by simp [hq]), if_pos hqm]
  · intro hg he hq hqm ha
    rw [detect, if_neg hb]
    simp only [hg, Bool.false_eq_true, if_false]
    rw [if_neg (by simp [he]), if_neg (by simp [hq]),
      if_neg (by simp [hqm]), if_pos ha]
  · intro hg he hq hqm ha hh
    rw [detect, if_neg hb]
    simp only [hg, Bool.false_eq_true, if_false]
    rw [if_neg (by simp [he]), if_neg (by simp [hq]),
      if_neg (by simp [hqm]), if_neg (by simp [ha]), if_pos hh]
  · intro hg he hq hqm ha hh
    rw [detect, if_neg hb]
    simp only [hg, Bool.false_eq_true, if_false]
    rw [if_neg (by simp [he]), if_neg (by simp [hq]),
      if_neg (by simp [hqm]), if_neg (by simp [ha]), if_neg (by simp [hh])]

/-- C6 witness: an input matching no pattern, with empty history, falls to
the final default `query`. -/
theorem c6_intent_decision_order_witness :
    detect "zzz".data [] = Intent.query := by
  have h := c6_intent_decision_order "zzz".data [] (by decide)
  exact h.2.2.2.2.2.2 (by decide) (by decide) (by decide) (by decide) (by decide) rfl

/-- Helper: the multi-row fallback parts ignore identifier columns, so
removing them from a row changes nothing. -/
theorem rowParts_dropIdColumns (row : Row) :
    rowParts (dropIdColumns row) = rowParts row := by
  induction row with
  | nil => rfl
  | cons kv rest ih =>
      by_cases hid : kv.1 ∈ ID_COLUMNS <;> by_cases hv : kv.2 = Val.vnone <;>
        simp [rowParts, dropIdColumns, List.filter_cons, List.filterMap_cons, hid, hv] <;>
        simpa [rowParts, dropIdColumns] using ih

/-- Helper: numbered fallback lines are invariant under dropping identifier
columns from every row. -/
theorem numberedLines_dropIdColumns :
    ∀ (rs : List Row) (i : Nat),
      numberedLines i (rs.map dropIdColumns) = numberedLines i rs
  | [], _ => rfl
  | r :: rest, i => by
      simp only [List.map_cons, numberedLines, rowParts_dropIdColumns,
        numberedLines_dropIdColumns rest (i + 1)]

/-- C9: the single-row fallback branch renders every non-`None` column —
identifier columns such as `user_id` included, so the user-facing answer can
contain the caller's `user_id` value — whereas the multi-row fallback branch
is invariant under removing the identifier columns, and `_make_serializable`
(the LLM path) excludes them entirely. -/
theorem c9_identifier_columns :
    (∀ (row : Row) (question k : Str) (v : Val), (k, v) ∈ row → v ≠ Val.vnone →
        fmtItem k v <:+: fallback_format [row] question) ∧
    (∀ (results : List Row) (question : Str), 2 ≤ results.length →
        fallback_format results question =
          fallback_format (results.map dropIdColumns) question) ∧
    (∀ (results : List Row) (row : Row), row ∈ make_serializable results →
        ∀ (k : Str) (v : Val), (k, v) ∈ row → k ∉ ID_COLUMNS) := by
  refine ⟨?_, ?_, ?_⟩
  · intro row question k v hmem hv
    rw [fallback_format, if_pos (by simp)]
    refine mem_infix_pyJoin ?_
    simp only [List.headD]
    exact List.mem_filterMap.2 ⟨(k, v), hmem, by simp [hv]⟩
  · intro results question hlen
    have hmaplen : (results.map dropIdColumns).length = results.length :=
      List.length_map _ _
    rw [fallback_format, fallback_format,
      if_neg (show ¬ results.length = 1 by omega),
      if_neg (show ¬ (results.map dropIdColumns).length = 1 by rw [hmaplen]; omega)]
    rw [← List.map_take, numberedLines_dropIdColumns, hmaplen]
  · intro results row hrow k v hkv
    rw [make_serializable] at hrow
    obtain ⟨r0, _, rfl⟩ := List.mem_map.1 hrow
    obtain ⟨kv0, _, hsome⟩ := List.mem_filterMap.1 hkv
    by_cases hid : kv0.1 ∈ ID_COLUMNS
    · simp [hid] at hsome
    · simp only [hid, if_neg, if_false] at hsome
      obtain ⟨h1, _⟩ := Prod.mk.injEq .. ▸ (Option.some.inj hsome)
      rw [← h1]
      exact hid

/-- C9 witness: a concrete single-row fallback rendering contains the
`user_id` column's value. -/
theorem c9_identifier_columns_witness :
    fmtItem "user_id".data (Val.vstr "abc-99".data) <:+:
      fallback_format
        [[("user_id".data, Val.vstr "abc-99".data), ("total".data, Val.vdec 1234)]]
        "q".data :=
  c9_identifier_columns.1
    [("user_id".data, Val.vstr "abc-99".data), ("total".data, Val.vdec 1234)]
    "q".data "user_id".data (Val.vstr "abc-99".data) (by decide) (by decide)

end ExpensesTracker
